import Mathlib

/-!
Verification development for the skyline-assistant backend, centred on the
OAuth token lifecycle core in src/services/googleApiService.js, the OAuth
consent handler in src/config/passport.js, the Google-Tasks controller
(toggleTaskCompletion) and the auth controller (disconnectGoogle).

The JavaScript is embedded shallowly: Mongo documents become structures with
Option-valued fields (an absent/undefined field is none), JS string
truthiness (undefined, null and the empty string are falsy) is made explicit,
timestamps are integers in milliseconds, and each stateful operation is a
pure function from an explicit system state (credential store record, token
cache entry, client pool) and its external inputs (current time, provider
exchange outcome) to a result together with the successor state.
-/

namespace Skyline

/-- JS truthiness of an optional string field: undefined/absent and the
empty string are falsy, every other string is truthy. -/
def jsStrTruthy : Option String → Bool
  | none => false
  | some s => s ≠ ""

/-- JS ... || ... on two optional values that are either absent or an
always-truthy value (e.g. Date objects read back from Mongo): the left
operand wins whenever it is present. -/
def jsOrOpt (a b : Option Int) : Option Int :=
  match a with
  | some v => some v
  | none => b

/-- JS (n || d) for an optional number n: absent and 0 are falsy, in which
case the default d is used. -/
def jsNumOr (n : Option Int) (d : Int) : Int :=
  match n with
  | none => d
  | some v => if v = 0 then d else v

/-- The googleTokens subdocument of the User model
(src/models/User.js): all token fields are optional. -/
structure GoogleTokens where
  accessToken : Option String
  refreshToken : Option String
  accessTokenExpiry : Option Int
  expiryDate : Option Int
  scope : List String
deriving Repr, DecidableEq

/-- The slice of a User document that the token lifecycle and the
disconnect operation touch. -/
structure UserRecord where
  googleId : Option String
  profilePicture : Option String
  googleTokens : Option GoogleTokens
deriving Repr, DecidableEq

/-- The token snapshot kept in the token cache under key tokens_userId
(shape built at src/services/googleApiService.js lines 117-122 and 182-186). -/
structure CacheTokens where
  access_token : Option String
  refresh_token : Option String
  expiry_date : Option Int
deriving Repr, DecidableEq

/-- One stored token-cache entry: the snapshot plus its absolute expiry
(set(key, value, ttlSeconds) stores value until now + ttl*1000). -/
structure CacheEntry where
  tokens : CacheTokens
  expires : Int
deriving Repr, DecidableEq

/-- Process state relevant to a fixed user: the credential record of the user in
the store (none when the user does not exist), the token-cache entry of the user,
and the OAuth client pool (the insertion-ordered list of its keys, oldest
first, mirroring JS Map iteration order). -/
structure SysState where
  user : Option UserRecord
  cacheEntry : Option CacheEntry
  pool : List String
deriving Repr, DecidableEq

/-- tokenCache.get for the fixed user at time now: a present entry past its
expiry behaves as absent (src/middleware/cache.js NodeCache semantics; the
fallback in googleApiService.js checks item.expires > Date.now()). -/
def cacheGet (s : SysState) (now : Int) : Option CacheTokens :=
  match s.cacheEntry with
  | some e => if e.expires > now then some e.tokens else none
  | none => none

/-- tokenCache.set(key, tokens, ttlSeconds) for the fixed user. -/
def cacheSet (s : SysState) (tokens : CacheTokens) (ttlSec : Int) (now : Int) : SysState :=
  { s with cacheEntry := some { tokens := tokens, expires := now + ttlSec * 1000 } }

/-- tokenCache.del for the fixed user. -/
def cacheDel (s : SysState) : SysState :=
  { s with cacheEntry := none }

/-- The pool key for a user: the string oauth_userId
(src/services/googleApiService.js line 43). -/
def poolKey (uid : String) : String :=
  "oauth_" ++ uid

/-- Pool effect of getOAuthClient (src/services/googleApiService.js lines
45-69): an already-pooled key leaves the pool unchanged (the handle is
reused, its credentials updated in place); otherwise, when the pool size
exceeds 100, the first (oldest inserted) key is deleted, and the new key is
appended. -/
def poolInsert (pool : List String) (key : String) : List String :=
  if key ∈ pool then pool
  else (if pool.length > 100 then pool.drop 1 else pool) ++ [key]

/-- A provider token-exchange response (the credentials object returned by
oauth2Client.refreshAccessToken): every field may be absent. -/
structure Credentials where
  access_token : Option String
  refresh_token : Option String
  expires_in : Option Int
  expiry_date : Option Int
deriving Repr, DecidableEq

/-- Error message thrown inside refreshToken when no refresh token is on
file (src/services/googleApiService.js lines 227-229). -/
def noRefreshTokenMsg : String :=
  "No refresh token available - user needs to re-authenticate"

/-- Error message thrown by the catch block of refreshToken, the only failure a
caller of refreshToken can observe (src/services/googleApiService.js
lines 264-266). -/
def refreshFailedMsg : String :=
  "Token refresh failed - user may need to re-authenticate"

/-- Error message thrown by setupClient when the user or the access token is
missing (src/services/googleApiService.js line 114). -/
def noTokensMsg : String :=
  "User not found or no Google tokens available"

/-- Stand-in for whatever error the provider raises on a failed exchange
(surfaced by refreshAccessToken); its content never escapes refreshToken. -/
def providerErrorMsg : String :=
  "provider exchange error"

/-- The credential-store write performed by updateUserTokens
(src/services/googleApiService.js lines 158-176) on the googleTokens
subdocument: accessTokenExpiry and the legacy expiryDate are both set to
now + (expires_in || 3600) seconds; refreshToken is written only when the
response carries a truthy one, otherwise the stored value is preserved;
an undefined access_token key is stripped from the update by Mongoose, so
the stored accessToken is then left unchanged. -/
def applyTokenUpdate (old : Option GoogleTokens) (tokens : Credentials) (now : Int) :
    GoogleTokens :=
  let base := old.getD
    { accessToken := none, refreshToken := none, accessTokenExpiry := none,
      expiryDate := none, scope := [] }
  { base with
    accessToken :=
      match tokens.access_token with
      | some s => some s
      | none => base.accessToken
    accessTokenExpiry := some (now + jsNumOr tokens.expires_in 3600 * 1000)
    expiryDate := some (now + jsNumOr tokens.expires_in 3600 * 1000)
    refreshToken :=
      if jsStrTruthy tokens.refresh_token then tokens.refresh_token
      else base.refreshToken }

/-- updateUserTokens (src/services/googleApiService.js lines 156-195):
persist the token update to the store (a no-op on a missing user, as
findByIdAndUpdate then matches nothing) and refresh the token-cache entry
with the raw response fields access_token / refresh_token and a recomputed
expiry_date, under a 3000-second TTL. The session sync only mutates the
request object and is not part of the modelled state. -/
def updateUserTokens (s : SysState) (tokens : Credentials) (now : Int) : SysState :=
  let s1 :=
    match s.user with
    | some u =>
      { s with
        user := some { u with googleTokens := some (applyTokenUpdate u.googleTokens tokens now) } }
    | none => s
  cacheSet s1
    { access_token := tokens.access_token
      refresh_token := tokens.refresh_token
      expiry_date := some (now + jsNumOr tokens.expires_in 3600 * 1000) }
    3000 now

/-- The try-block of refreshToken (src/services/googleApiService.js lines
220-257): read the user (with the credential fields) from the store, throw
when no truthy refresh token is on file, acquire the pooled client, run the
provider exchange (exchange = none models a network/provider failure), put
the stored refresh token into the response when the response lacks a truthy
one, and persist via updateUserTokens. Returns the final credentials and
the successor state, or the thrown message with the state reached so far. -/
def refreshTokenInner (s : SysState) (uid : String) (exchange : Option Credentials)
    (now : Int) : Except String Credentials × SysState :=
  match s.user with
  | none => (Except.error noRefreshTokenMsg, s)
  | some u =>
    match u.googleTokens with
    | none => (Except.error noRefreshTokenMsg, s)
    | some gt =>
      if jsStrTruthy gt.refreshToken then
        let s1 := { s with pool := poolInsert s.pool (poolKey uid) }
        match exchange with
        | none => (Except.error providerErrorMsg, s1)
        | some creds =>
          let creds1 :=
            if jsStrTruthy creds.refresh_token then creds
            else { creds with refresh_token := gt.refreshToken }
          (Except.ok creds1, updateUserTokens s1 creds1 now)
      else (Except.error noRefreshTokenMsg, s)

/-- refreshToken as its callers observe it (src/services/googleApiService.js
lines 219-268): the catch block converts every failure, whatever was thrown
inside, into a deletion of the token-cache entry of the user followed by the one
generic refreshFailedMsg error. -/
def refreshTokenRun (s : SysState) (uid : String) (exchange : Option Credentials)
    (now : Int) : Except String Credentials × SysState :=
  match refreshTokenInner s uid exchange now with
  | (Except.ok c, s1) => (Except.ok c, s1)
  | (Except.error _, s1) => (Except.error refreshFailedMsg, cacheDel s1)

/-- Whether a run of refreshToken reaches the provider exchange
(oauth2Client.refreshAccessToken is invoked): exactly when the stored
record exists and carries a truthy refresh token. -/
def refreshAttempted (s : SysState) : Bool :=
  match s.user with
  | some u =>
    match u.googleTokens with
    | some gt => jsStrTruthy gt.refreshToken
    | none => false
  | none => false

/-- setupClient (src/services/googleApiService.js lines 98-153): take the
token snapshot from the cache, else read it from the store (failing without
a truthy access token) and cache it for 3000 seconds; acquire the pooled
client; then, when the expiry of the snapshot is less than 300000 ms away,
invoke refreshToken once (an absent expiry gives NaN, and NaN < 300000 is
false, so no refresh). The result is the outcome (the key of the pooled client
on success), the successor state, and the number of provider refresh
exchanges invoked during the run. -/
def setupClientRun (s : SysState) (uid : String) (exchange : Option Credentials)
    (now : Int) : Except String String × SysState × Nat :=
  let tokRes : Except String (CacheTokens × SysState) :=
    match cacheGet s now with
    | some t => Except.ok (t, s)
    | none =>
      match s.user with
      | none => Except.error noTokensMsg
      | some u =>
        match u.googleTokens with
        | none => Except.error noTokensMsg
        | some gt =>
          if jsStrTruthy gt.accessToken then
            let t : CacheTokens :=
              { access_token := gt.accessToken
                refresh_token := gt.refreshToken
                expiry_date := jsOrOpt gt.accessTokenExpiry gt.expiryDate }
            Except.ok (t, cacheSet s t 3000 now)
          else Except.error noTokensMsg
  match tokRes with
  | Except.error m => (Except.error m, s, 0)
  | Except.ok (t, s1) =>
    let s2 := { s1 with pool := poolInsert s1.pool (poolKey uid) }
    let needRefresh :=
      match t.expiry_date with
      | some e => decide (e - now < 300000)
      | none => false
    if needRefresh then
      let attempts := if refreshAttempted s2 then 1 else 0
      match refreshTokenRun s2 uid exchange now with
      | (Except.ok _, s3) => (Except.ok (poolKey uid), s3, attempts)
      | (Except.error m, s3) => (Except.error m, s3, attempts)
    else (Except.ok (poolKey uid), s2, 0)

/-- The stored refresh token of the (fixed) user in a system state. -/
def storedRefreshToken (s : SysState) : Option String :=
  (s.user.bind (fun u => u.googleTokens)).bind (fun gt => gt.refreshToken)

/-- The scope list written by the consent handler
(src/config/passport.js lines 41-49). -/
def passportScopes : List String :=
  [ "https://www.googleapis.com/auth/gmail.readonly",
    "https://www.googleapis.com/auth/gmail.send",
    "https://www.googleapis.com/auth/gmail.modify",
    "https://www.googleapis.com/auth/calendar.readonly",
    "https://www.googleapis.com/auth/calendar.events",
    "https://www.googleapis.com/auth/tasks",
    "https://www.googleapis.com/auth/tasks.readonly" ]

/-- The existing-user branch of the GoogleStrategy verify callback in
src/config/passport.js (lines 35-54): the whole googleTokens subdocument is
reassigned to a fresh object holding the delivered accessToken and
refreshToken, an expiryDate of now + 3600000 and the scope list. A
delivered refreshToken of none (Google sent none) makes the stored
refreshToken field absent, and fields not in the object (accessTokenExpiry)
become absent too. The account-linking branch (lines 59-80) writes the
same googleTokens object. -/
def googleVerifyExistingUpdate (u : UserRecord) (accessToken : String)
    (refreshToken : Option String) (now : Int) : UserRecord :=
  { u with
    googleTokens := some {
      accessToken := some accessToken
      refreshToken := refreshToken
      accessTokenExpiry := none
      expiryDate := some (now + 3600000)
      scope := passportScopes } }

/-- The existing-user branch of the repaired GoogleStrategy verify callback
found elsewhere in the repository (src/unnamed/part_006, lines 55-84): the
delivered refreshToken falls back to the stored one when falsy
(refreshToken || user.googleTokens?.refreshToken), and accessTokenExpiry is
written alongside expiryDate. -/
def googleVerifyExistingUpdateFixed (u : UserRecord) (accessToken : String)
    (refreshToken : Option String) (now : Int) : UserRecord :=
  { u with
    googleTokens := some {
      accessToken := some accessToken
      refreshToken :=
        if jsStrTruthy refreshToken then refreshToken
        else (u.googleTokens.bind (fun gt => gt.refreshToken))
      accessTokenExpiry := some (now + 3600000)
      expiryDate := some (now + 3600000)
      scope := passportScopes } }

/-- disconnectGoogle (src/config/database.js lines 636-662, the auth
controller document): a single findByIdAndUpdate that unsets googleId,
googleTokens and profilePicture on the user record. Nothing in the handler
references the token cache or the OAuth client pool, so both components of
the state pass through unchanged. -/
def disconnectGoogle (s : SysState) : SysState :=
  { s with user := s.user.map (fun u =>
      { u with googleId := none, googleTokens := none, profilePicture := none }) }

/-- A Google Task as read back from the provider, with the fields
toggleTaskCompletion inspects; absent fields are none. -/
structure GTask where
  id : String
  title : Option String
  notes : Option String
  due : Option String
  parent : Option String
  status : String
  completed : Option String
deriving Repr, DecidableEq

/-- The update payload toggleTaskCompletion hands to updateTask; a none
field is absent from the JSON object sent to the provider. -/
structure TaskUpdatePayload where
  title : Option String
  notes : Option String
  status : Option String
  due : Option String
  parent : Option String
  completed : Option String
deriving Repr, DecidableEq

/-- JS truthiness filter on an optional string (used for
if (currentTask.due) ... style guards): keeps the value only when truthy. -/
def jsKeepTruthy (o : Option String) : Option String :=
  match o with
  | some s => if s = "" then none else some s
  | none => none

/-- The payload construction of toggleTaskCompletion
(src/config/database.js lines 369-433, the Google-Tasks controller
document): find the task by id in the freshly listed tasks; flip its
status; build an update payload with the read title, notes defaulted to the
empty string, the flipped status, due and parent copied when truthy, and a
completed timestamp (the ISO string of the current time, passed here as nowIso)
included exactly when the new status is completed. Returns none when the
task is not in the list (the controller answers 404). -/
def toggleTaskCompletion (tasks : List GTask) (taskId : String) (nowIso : String) :
    Option TaskUpdatePayload :=
  match tasks.find? (fun t => t.id = taskId) with
  | none => none
  | some t =>
    let newStatus := if t.status = "completed" then "needsAction" else "completed"
    some
      { title := t.title
        notes := some (t.notes.getD "")
        status := some newStatus
        due := jsKeepTruthy t.due
        parent := jsKeepTruthy t.parent
        completed := if newStatus = "completed" then some nowIso else none }

/-- getEmails (src/services/googleApiService.js lines 305-347), after
setupClient has produced a client: the message list is requested with
maxResults capped at 50 (listMessages models gmail.users.messages.list,
returning none when the response has no messages field); the first
maxResults listed ids are each fetched (fetch models the per-message
gmail.users.messages.get, none modelling a fetch that threw, which the code
turns into null), and the nulls are filtered out of the returned list. -/
def getEmails (listMessages : Int → Option (List String))
    (fetch : String → Option String) (maxResults : Nat) : List String :=
  match listMessages (min (maxResults : Int) 50) with
  | none => []
  | some msgs => ((msgs.take maxResults).map fetch).filterMap id

/-! Concrete fixtures used by the witness and counterexample theorems. -/

/-- A stored googleTokens subdocument with both tokens and both expiry
fields on file. -/
def gtFix : GoogleTokens :=
  { accessToken := some "at0", refreshToken := some "rt0",
    accessTokenExpiry := some 1000000, expiryDate := some 900000, scope := [] }

/-- A connected user carrying gtFix. -/
def uFix : UserRecord :=
  { googleId := some "g-1", profilePicture := some "pic", googleTokens := some gtFix }

/-- System state: uFix on file, empty token cache, empty pool. -/
def sFix : SysState :=
  { user := some uFix, cacheEntry := none, pool := [] }

/-- A successful exchange response that carries no refresh_token. -/
def credsNoRT : Credentials :=
  { access_token := some "at1", refresh_token := none,
    expires_in := some 3000, expiry_date := some 777 }

/-- gtFix with the refresh token missing. -/
def gtNoRT : GoogleTokens :=
  { gtFix with refreshToken := none }

/-- uFix with no refresh token on file. -/
def uNoRT : UserRecord :=
  { uFix with googleTokens := some gtNoRT }

/-- System state with no refresh token on file (cache empty). -/
def sNoRT : SysState :=
  { user := some uNoRT, cacheEntry := none, pool := [] }

/-- An exchange response whose expires_in is the (falsy) number 0. -/
def credsZero : Credentials :=
  { access_token := some "a2", refresh_token := none,
    expires_in := some 0, expiry_date := some 123456 }

/-- A client pool holding exactly 100 distinct keys. -/
def pool100 : List String :=
  (List.range 100).map (fun i => "oauth_user" ++ toString i)

/-- A fully populated state for the disconnect scenario: credential on
file, a live token-cache entry, and a pooled client handle. -/
def sConnected : SysState :=
  { user := some uFix
    cacheEntry := some { tokens := { access_token := some "at0",
                                     refresh_token := some "rt0",
                                     expiry_date := some 1000000 },
                         expires := 99999999 }
    pool := [poolKey "u1"] }

/-- The toggle scenario of the spec: a scenario task: needsAction with notes and a due
date. -/
def tFix : GTask :=
  { id := "t1", title := some "Buy milk", notes := some "x",
    due := some "2024-01-01", parent := none,
    status := "needsAction", completed := none }

/-! Theorems. -/

/-- Claim C2: the spec requires the OAuth consent handler to preserve an
already-stored refreshToken when the delivered refreshToken is absent
(the read-merge-preserve rule of refresh). The handler at the cited place
(src/config/passport.js, existing-user branch) instead blind-overwrites the
whole googleTokens subdocument, so this theorem evaluates it at the failing
input: the stored credential holds refresh token rt0, the consent delivery
carries no refresh token, and after the handler runs the stored refresh
token is gone. The repaired handler elsewhere in the repository
(src/unnamed/part_006) does preserve it, marking this as a slip against the
stated invariant. -/
theorem passport_consent_clobbers_refreshToken :
    (uFix.googleTokens.bind (fun gt => gt.refreshToken)) = some "rt0"
    ∧ ((googleVerifyExistingUpdate uFix "at-new" none 0).googleTokens.bind
        (fun gt => gt.refreshToken)) = none :=
  ⟨rfl, rfl⟩

/-- The repaired consent handler (src/unnamed/part_006) preserves the
stored refresh token whenever the delivered one is absent. -/
theorem googleVerifyFixed_preserves (u : UserRecord) (a : String) (now : Int) :
    ((googleVerifyExistingUpdateFixed u a none now).googleTokens.bind
        (fun gt => gt.refreshToken)) =
      (u.googleTokens.bind (fun gt => gt.refreshToken)) :=
  rfl

/-- Claim C6 counterexample: with the pool holding exactly 100 entries,
acquiring a client for a new user evicts nothing — the eviction guard is
size > 100, not size ≥ 100 — so the pool grows to 101 entries and the
oldest entry survives, contradicting "oldest evicted, size unchanged at
100, never exceeds 100". -/
theorem pool_cap_at_100_cex :
    pool100.length = 100
    ∧ poolInsert pool100 (poolKey "newuser") = pool100 ++ [poolKey "newuser"]
    ∧ (poolInsert pool100 (poolKey "newuser")).length = 101 := by
  refine ⟨by decide, by decide, by decide⟩

/-- Claim C6 (amended): acquiring a client for a user with no pooled handle
inserts the new key without eviction while the pool holds at most 100
entries (so a pool of exactly 100 grows to 101), evicts the oldest entry
exactly when the pool holds more than 100 entries, and consequently the
pool size never exceeds 101. -/
theorem pool_insert_cap_amended (pool : List String) (key : String)
    (hnew : key ∉ pool) :
    (pool.length = 100 →
      poolInsert pool key = pool ++ [key] ∧ (poolInsert pool key).length = 101)
    ∧ (pool.length > 100 → poolInsert pool key = pool.drop 1 ++ [key])
    ∧ (pool.length ≤ 101 → (poolInsert pool key).length ≤ 101) := by
  unfold poolInsert
  rw [if_neg hnew]
  refine ⟨?_, ?_, ?_⟩
  · intro h100
    rw [if_neg (by omega : ¬ pool.length > 100)]
    exact ⟨rfl, by simp [h100]⟩
  · intro hgt
    rw [if_pos hgt]
  · intro hle
    by_cases hgt : pool.length > 100
    · rw [if_pos hgt]
      simp only [List.length_append, List.length_drop, List.length_cons,
        List.length_nil]
      omega
    · rw [if_neg hgt]
      simp only [List.length_append, List.length_cons, List.length_nil]
      omega

/-- Claim C6 witness: the amended statement applied to the concrete
100-entry pool. -/
theorem pool_insert_cap_amended_witness :
    (poolKey "newuser") ∉ pool100
    ∧ ((pool100.length = 100 →
          poolInsert pool100 (poolKey "newuser") = pool100 ++ [poolKey "newuser"]
          ∧ (poolInsert pool100 (poolKey "newuser")).length = 101)
        ∧ (pool100.length > 100 →
            poolInsert pool100 (poolKey "newuser") = pool100.drop 1 ++ [poolKey "newuser"])
        ∧ (pool100.length ≤ 101 →
            (poolInsert pool100 (poolKey "newuser")).length ≤ 101)) :=
  ⟨by decide, pool_insert_cap_amended pool100 (poolKey "newuser") (by decide)⟩

/-- Claim C7: toggleTaskCompletion reads the task, then writes back a
payload carrying the title it read, the notes it read (defaulted to the
empty string when absent), the due date and parent it read (when present
and nonempty), and the flipped status; flipping to completed additionally
sets a fresh completed timestamp, and flipping back to needsAction omits
the completed field entirely. -/
theorem toggle_preserves_and_flips (tasks : List GTask) (taskId nowIso : String)
    (t : GTask) (hfind : tasks.find? (fun x => x.id = taskId) = some t) :
    ∃ p, toggleTaskCompletion tasks taskId nowIso = some p
      ∧ p.title = t.title
      ∧ p.notes = some (t.notes.getD "")
      ∧ p.due = jsKeepTruthy t.due
      ∧ p.parent = jsKeepTruthy t.parent
      ∧ p.status = some (if t.status = "completed" then "needsAction" else "completed")
      ∧ (t.status ≠ "completed" → p.completed = some nowIso)
      ∧ (t.status = "completed" → p.completed = none) := by
  unfold toggleTaskCompletion
  rw [hfind]
  refine ⟨_, rfl, rfl, rfl, rfl, rfl, rfl, ?_, ?_⟩
  · intro hne
    simp [hne]
  · intro heq
    simp [heq]

/-- Claim C7 witness: the spec scenario — a needsAction task with notes x
and due 2024-01-01 — instantiating the theorem. -/
theorem toggle_preserves_and_flips_witness :
    ([tFix].find? (fun x => x.id = "t1") = some tFix)
    ∧ (∃ p, toggleTaskCompletion [tFix] "t1" "2024-06-01T00:00:00.000Z" = some p
        ∧ p.title = tFix.title
        ∧ p.notes = some (tFix.notes.getD "")
        ∧ p.due = jsKeepTruthy tFix.due
        ∧ p.parent = jsKeepTruthy tFix.parent
        ∧ p.status = some (if tFix.status = "completed" then "needsAction" else "completed")
        ∧ (tFix.status ≠ "completed" → p.completed = some "2024-06-01T00:00:00.000Z")
        ∧ (tFix.status = "completed" → p.completed = none)) :=
  ⟨by decide, toggle_preserves_and_flips [tFix] "t1" "2024-06-01T00:00:00.000Z" tFix (by decide)⟩

/-- Claim C8 counterexample: in a fully populated state (credential on
file, live token-cache entry, pooled handle), the disconnect operation
removes the credential from the store but leaves the token-cache entry and
the pooled handle exactly where they were, contradicting "also drops that
entry of the user from the Token Cache and the handle of the user from the Client
Pool". -/
theorem disconnect_leaves_cache_and_pool_cex :
    ((disconnectGoogle sConnected).user.bind (fun u => u.googleTokens)) = none
    ∧ (disconnectGoogle sConnected).cacheEntry = sConnected.cacheEntry
    ∧ sConnected.cacheEntry.isSome = true
    ∧ (disconnectGoogle sConnected).pool = [poolKey "u1"] :=
  ⟨rfl, rfl, rfl, rfl⟩

/-- Claim C8 (amended): disconnect unsets googleId, googleTokens and
profilePicture on the stored user record, but performs no eviction: the
token-cache entry and the client pool pass through unchanged. -/
theorem disconnect_store_only_amended (s : SysState) :
    ((disconnectGoogle s).user.bind (fun u => u.googleTokens)) = none
    ∧ ((disconnectGoogle s).user.bind (fun u => u.googleId)) = none
    ∧ ((disconnectGoogle s).user.bind (fun u => u.profilePicture)) = none
    ∧ (disconnectGoogle s).cacheEntry = s.cacheEntry
    ∧ (disconnectGoogle s).pool = s.pool := by
  cases hu : s.user <;> simp [disconnectGoogle, hu]

/-- Claim C9 counterexample: a refresh response carrying expires_in = 0
(a falsy number) is treated like an absent expires_in — the stored expiry
becomes now + 3600 seconds instead of now + 0 seconds, so "defaulting to
3600 only when expires_in is absent" does not hold as stated. -/
theorem updateTokens_expiresIn_zero_cex :
    credsZero.expires_in = some 0
    ∧ ((updateUserTokens sFix credsZero 1000).user.bind (fun u => u.googleTokens)).map
        (fun gt => gt.accessTokenExpiry) = some (some (1000 + 3600 * 1000))
    ∧ ((1000 : Int) + 3600 * 1000) ≠ 1000 + 0 * 1000 := by
  refine ⟨rfl, rfl, by decide⟩

/-- Claim C9 (amended): every credential write by updateUserTokens sets the
two stored expiry fields googleTokens.accessTokenExpiry and the legacy
googleTokens.expiryDate to the same timestamp, computed as now plus
expires_in seconds where a falsy expires_in (absent or zero) defaults to
3600; the expiry_date of the response field is ignored by the write. -/
theorem updateTokens_expiry_amended (s : SysState) (u : UserRecord)
    (tokens : Credentials) (now : Int) (hu : s.user = some u) :
    ∃ gt, (updateUserTokens s tokens now).user =
        some { u with googleTokens := some gt }
      ∧ gt.accessTokenExpiry = some (now + jsNumOr tokens.expires_in 3600 * 1000)
      ∧ gt.expiryDate = gt.accessTokenExpiry
      ∧ (∀ d, updateUserTokens s { tokens with expiry_date := d } now =
          updateUserTokens s tokens now) := by
  refine ⟨applyTokenUpdate u.googleTokens tokens now, ?_, rfl, rfl, ?_⟩
  · simp [updateUserTokens, cacheSet, hu]
  · intro d
    rfl

/-- Claim C9 witness: the amended statement at the concrete connected
state and the no-refresh-token exchange response. -/
theorem updateTokens_expiry_amended_witness :
    sFix.user = some uFix
    ∧ (∃ gt, (updateUserTokens sFix credsNoRT 5000).user =
          some { uFix with googleTokens := some gt }
        ∧ gt.accessTokenExpiry = some (5000 + jsNumOr credsNoRT.expires_in 3600 * 1000)
        ∧ gt.expiryDate = gt.accessTokenExpiry
        ∧ (∀ d, updateUserTokens sFix { credsNoRT with expiry_date := d } 5000 =
            updateUserTokens sFix credsNoRT 5000)) :=
  ⟨rfl, updateTokens_expiry_amended sFix uFix credsNoRT 5000 rfl⟩

/-- Claim C10: getEmails returns exactly the per-message fetch results that
succeeded, in list order, capped at maxResults; a message whose individual
fetch fails is silently dropped from the returned list without failing the
whole operation. -/
theorem getEmails_successful_in_order (listMessages : Int → Option (List String))
    (fetch : String → Option String) (maxResults : Nat) (msgs : List String)
    (hlist : listMessages (min (maxResults : Int) 50) = some msgs) :
    getEmails listMessages fetch maxResults = (msgs.take maxResults).filterMap fetch
    ∧ (getEmails listMessages fetch maxResults).length ≤ maxResults := by
  have h1 : getEmails listMessages fetch maxResults =
      (msgs.take maxResults).filterMap fetch := by
    unfold getEmails
    rw [hlist]
    show List.filterMap id (List.map fetch (msgs.take maxResults)) = _
    rw [List.filterMap_map]
    rfl
  refine ⟨h1, ?_⟩
  rw [h1]
  exact le_trans (List.length_filterMap_le _ _) (List.length_take_le _ _)

/-- Claim C10 witness: four listed messages, the second fetch failing,
maxResults 3 — the result is the two successful fetches of the first three
messages, in order. -/
theorem getEmails_successful_in_order_witness :
    ((fun _ => some ["m1", "m2", "m3", "m4"]) (min ((3 : Nat) : Int) 50) =
        some ["m1", "m2", "m3", "m4"])
    ∧ (getEmails (fun _ => some ["m1", "m2", "m3", "m4"])
          (fun m => if m = "m2" then none else some ("email-" ++ m)) 3 =
        (["m1", "m2", "m3", "m4"].take 3).filterMap
          (fun m => if m = "m2" then none else some ("email-" ++ m))
      ∧ (getEmails (fun _ => some ["m1", "m2", "m3", "m4"])
            (fun m => if m = "m2" then none else some ("email-" ++ m)) 3).length ≤ 3)
    ∧ getEmails (fun _ => some ["m1", "m2", "m3", "m4"])
        (fun m => if m = "m2" then none else some ("email-" ++ m)) 3 =
      ["email-m1", "email-m3"] :=
  ⟨rfl,
   getEmails_successful_in_order (fun _ => some ["m1", "m2", "m3", "m4"])
     (fun m => if m = "m2" then none else some ("email-" ++ m)) 3
     ["m1", "m2", "m3", "m4"] rfl,
   by decide⟩

/-- Claim C1: whenever refreshToken succeeds and the exchange
response carries no refresh_token, the refresh token stored in the
credential store after the run equals the one stored before it — it is
neither cleared nor overwritten with an empty value. -/
theorem refresh_preserves_refreshToken (s : SysState) (uid : String)
    (creds : Credentials) (now : Int)
    (habsent : creds.refresh_token = none)
    (hok : ∃ c, (refreshTokenRun s uid (some creds) now).1 = Except.ok c) :
    storedRefreshToken (refreshTokenRun s uid (some creds) now).2 =
      storedRefreshToken s := by
  cases hu : s.user with
  | none =>
    obtain ⟨c, hc⟩ := hok
    simp [refreshTokenRun, refreshTokenInner, hu] at hc
  | some u =>
    cases hgt : u.googleTokens with
    | none =>
      obtain ⟨c, hc⟩ := hok
      simp [refreshTokenRun, refreshTokenInner, hu, hgt] at hc
    | some gt =>
      by_cases hrt : jsStrTruthy gt.refreshToken
      · have habs2 : jsStrTruthy creds.refresh_token = false := by
          rw [habsent]
          rfl
        simp [refreshTokenRun, refreshTokenInner, hu, hgt, hrt, habs2,
          updateUserTokens, applyTokenUpdate, cacheSet, storedRefreshToken]
      · obtain ⟨c, hc⟩ := hok
        simp [refreshTokenRun, refreshTokenInner, hu, hgt, hrt] at hc

/-- Claim C1 witness: the connected state sFix refreshed with an exchange
response lacking a refresh_token keeps the stored refresh token. -/
theorem refresh_preserves_refreshToken_witness :
    credsNoRT.refresh_token = none
    ∧ (∃ c, (refreshTokenRun sFix "u1" (some credsNoRT) 5000).1 = Except.ok c)
    ∧ storedRefreshToken (refreshTokenRun sFix "u1" (some credsNoRT) 5000).2 =
        storedRefreshToken sFix :=
  ⟨rfl, ⟨_, rfl⟩,
   refresh_preserves_refreshToken sFix "u1" credsNoRT 5000 rfl ⟨_, rfl⟩⟩

/-- Claim C5: when the provider exchange fails (a network/provider error,
modelled as exchange = none) on a run that actually reaches the exchange,
the catch of refreshToken evicts the token-cache entry of the user and fails with the
generic RefreshFailed error. -/
theorem refresh_failure_evicts_cache (s : SysState) (uid : String) (now : Int)
    (hatt : refreshAttempted s = true) :
    (refreshTokenRun s uid none now).1 = Except.error refreshFailedMsg
    ∧ (refreshTokenRun s uid none now).2.cacheEntry = none := by
  cases hu : s.user with
  | none => simp [refreshAttempted, hu] at hatt
  | some u =>
    cases hgt : u.googleTokens with
    | none => simp [refreshAttempted, hu, hgt] at hatt
    | some gt =>
      have hrt : jsStrTruthy gt.refreshToken = true := by
        simpa [refreshAttempted, hu, hgt] using hatt
      simp [refreshTokenRun, refreshTokenInner, hu, hgt, hrt, cacheDel]

/-- Claim C5 witness: the connected state sFix with a failing exchange. -/
theorem refresh_failure_evicts_cache_witness :
    refreshAttempted sFix = true
    ∧ (refreshTokenRun sFix "u1" none 0).1 = Except.error refreshFailedMsg
    ∧ (refreshTokenRun sFix "u1" none 0).2.cacheEntry = none :=
  ⟨rfl,
   (refresh_failure_evicts_cache sFix "u1" 0 rfl).1,
   (refresh_failure_evicts_cache sFix "u1" 0 rfl).2⟩

/-- Claim C4 counterexample: the failure a caller observes when no refresh
token is on file is the very same error value as the one produced by a
transient provider failure — both runs end in refreshFailedMsg — so the
missing-refresh-token failure is not a distinct, distinguishable
ReauthRequired kind. -/
theorem refresh_missing_rt_same_error_cex :
    (refreshTokenRun sNoRT "u1" (some credsNoRT) 0).1 = Except.error refreshFailedMsg
    ∧ (refreshTokenRun sFix "u1" none 0).1 = Except.error refreshFailedMsg :=
  ⟨rfl, rfl⟩

/-- Claim C4 (amended): refresh reads the refresh token from the credential
store, not the token cache (the outcome is the same for every cache
content, and the inner step throws the distinct no-refresh-token message),
but the own catch block of the function converts every failure into the one
generic RefreshFailed error after evicting the cache entry; consequently
ensureClient on a near-expiry access token with no refresh token on file
also fails with that same RefreshFailed error. -/
theorem refresh_missing_rt_amended (s : SysState) (uid : String)
    (exchange : Option Credentials) (now : Int) (u : UserRecord)
    (hu : s.user = some u)
    (hrt : jsStrTruthy (u.googleTokens.bind (fun gt => gt.refreshToken)) = false) :
    (refreshTokenInner s uid exchange now).1 = Except.error noRefreshTokenMsg
    ∧ (∀ ce, (refreshTokenInner { s with cacheEntry := ce } uid exchange now).1 =
        Except.error noRefreshTokenMsg)
    ∧ (refreshTokenRun s uid exchange now).1 = Except.error refreshFailedMsg
    ∧ (refreshTokenRun s uid exchange now).2.cacheEntry = none
    ∧ (∀ gt e, u.googleTokens = some gt → jsStrTruthy gt.accessToken = true →
        jsOrOpt gt.accessTokenExpiry gt.expiryDate = some e → e - now < 300000 →
        cacheGet s now = none →
        (setupClientRun s uid exchange now).1 = Except.error refreshFailedMsg) := by
  cases hgt : u.googleTokens with
  | none =>
    refine ⟨?_, ?_, ?_, ?_, ?_⟩
    · simp [refreshTokenInner, hu, hgt]
    · intro ce
      simp [refreshTokenInner, hu, hgt]
    · simp [refreshTokenRun, refreshTokenInner, hu, hgt]
    · simp [refreshTokenRun, refreshTokenInner, hu, hgt, cacheDel]
    · intro gt e hgt2
      simp at hgt2
  | some gt =>
    rw [hgt] at hrt
    have hrt2 : jsStrTruthy gt.refreshToken = false := hrt
    refine ⟨?_, ?_, ?_, ?_, ?_⟩
    · simp [refreshTokenInner, hu, hgt, hrt2]
    · intro ce
      simp [refreshTokenInner, hu, hgt, hrt2]
    · simp [refreshTokenRun, refreshTokenInner, hu, hgt, hrt2]
    · simp [refreshTokenRun, refreshTokenInner, hu, hgt, hrt2, cacheDel]
    · intro gt2 e hgt2 hat hexp hlt hmiss
      injection hgt2 with hgg
      subst hgg
      simp [setupClientRun, hmiss, hu, hgt, hat, hexp, hlt, refreshTokenRun,
        refreshTokenInner, cacheSet, hrt2]

/-- Claim C4 witness: the no-refresh-token state with a near-expired access
token: the inner throw is the distinct message, the observed failure is the
generic one, the cache ends evicted, and setupClient surfaces the same
generic failure. -/
theorem refresh_missing_rt_amended_witness :
    sNoRT.user = some uNoRT
    ∧ jsStrTruthy (uNoRT.googleTokens.bind (fun gt => gt.refreshToken)) = false
    ∧ ((refreshTokenInner sNoRT "u1" (some credsNoRT) 900000).1 =
          Except.error noRefreshTokenMsg
      ∧ (∀ ce, (refreshTokenInner { sNoRT with cacheEntry := ce } "u1"
            (some credsNoRT) 900000).1 = Except.error noRefreshTokenMsg)
      ∧ (refreshTokenRun sNoRT "u1" (some credsNoRT) 900000).1 =
          Except.error refreshFailedMsg
      ∧ (refreshTokenRun sNoRT "u1" (some credsNoRT) 900000).2.cacheEntry = none
      ∧ (∀ gt e, uNoRT.googleTokens = some gt → jsStrTruthy gt.accessToken = true →
          jsOrOpt gt.accessTokenExpiry gt.expiryDate = some e → e - 900000 < 300000 →
          cacheGet sNoRT 900000 = none →
          (setupClientRun sNoRT "u1" (some credsNoRT) 900000).1 =
            Except.error refreshFailedMsg)) :=
  ⟨rfl, rfl,
   refresh_missing_rt_amended sNoRT "u1" (some credsNoRT) 900000 uNoRT rfl rfl⟩

/-- Claim C3: setupClient, run on a cache miss against a stored credential
with a truthy access token and an expiry timestamp e, invokes the provider
refresh exchange exactly once when e is less than 300000 ms away (given
that a refresh can proceed: a refresh token on file and a reachable
provider), and invokes none when it is not; in both cases it returns the
pooled client. -/
theorem setupClient_refresh_iff (s : SysState) (uid : String)
    (exchange : Option Credentials) (now : Int) (u : UserRecord)
    (gt : GoogleTokens) (e : Int)
    (hmiss : cacheGet s now = none)
    (hu : s.user = some u) (hgt : u.googleTokens = some gt)
    (hat : jsStrTruthy gt.accessToken = true)
    (hexp : jsOrOpt gt.accessTokenExpiry gt.expiryDate = some e)
    (hready : e - now < 300000 →
      jsStrTruthy gt.refreshToken = true ∧ ∃ creds, exchange = some creds) :
    (setupClientRun s uid exchange now).1 = Except.ok (poolKey uid)
    ∧ (setupClientRun s uid exchange now).2.2 =
        (if e - now < 300000 then 1 else 0) := by
  by_cases hlt : e - now < 300000
  · obtain ⟨hrt, creds, hex⟩ := hready hlt
    subst hex
    simp [setupClientRun, hmiss, hu, hgt, hat, hexp, hlt, refreshTokenRun,
      refreshTokenInner, refreshAttempted, cacheSet, hrt]
  · simp [setupClientRun, hmiss, hu, hgt, hat, hexp, hlt]

/-- Claim C3 witness: sFix with expiry 1000000 at now = 900000 (within 5
minutes, one exchange) — the theorem instantiated, its hypotheses checked
concretely. -/
theorem setupClient_refresh_iff_witness :
    cacheGet sFix 900000 = none
    ∧ sFix.user = some uFix
    ∧ uFix.googleTokens = some gtFix
    ∧ jsStrTruthy gtFix.accessToken = true
    ∧ jsOrOpt gtFix.accessTokenExpiry gtFix.expiryDate = some 1000000
    ∧ ((setupClientRun sFix "u1" (some credsNoRT) 900000).1 =
          Except.ok (poolKey "u1")
      ∧ (setupClientRun sFix "u1" (some credsNoRT) 900000).2.2 =
          (if (1000000 : Int) - 900000 < 300000 then 1 else 0)) :=
  ⟨rfl, rfl, rfl, rfl, rfl,
   setupClient_refresh_iff sFix "u1" (some credsNoRT) 900000 uFix gtFix 1000000
     rfl rfl rfl rfl rfl (fun _ => ⟨rfl, ⟨credsNoRT, rfl⟩⟩)⟩

end Skyline
